import Mathlib

/-!
Verification of the camera-describe repository's analyze proxy and
client-side capture/filter logic, shallowly embedded in Lean 4.

The server side (`src/api/analyze.js`, default export `handler`) is a
single function: CORS headers, an OPTIONS early return, an API-key
check, then a conditional dispatch over a mode string into either a
generative-text branch (prompt table + sequential model fallback) or a
Vision branch (feature table + response formatting).  External HTTP
calls are modelled as oracle functions passed to the embedded handler;
the handler returns the list of provider calls it issued together with
the HTTP response it produced.

The client side (the `App` components, in particular `captureAndAnalyze`
and `applyFilters` of the filter-equipped variants) is embedded as pure
functions over pixel buffers; canvas JPEG encoding is an abstract
parameter and `Math.random` is an explicit noise stream.
-/

/-- A JSON response body as the handler builds it: a `result` field, an
`error` field, either of which may be absent.  The source only ever
writes one-field objects; keeping both fields optional lets us state
and prove that. -/
structure JsonBody where
  result : Option String
  error : Option String
  deriving DecidableEq, Repr

/-- An HTTP response: status code plus optional JSON body (the OPTIONS
early return sends no body: `res.status(200).end()`). -/
structure HttpResponse where
  status : Nat
  body : Option JsonBody
  deriving DecidableEq, Repr

/-- The first element of the Vision API's `data.responses` array, with
the three annotation arrays the handler inspects.  `none` models an
absent field; `some []` models a present but empty array (which is
truthy in JavaScript).  Only the `description` strings matter to the
handler, so each array is a list of descriptions. -/
structure VisionResData where
  labelAnns : Option (List String)
  textAnns : Option (List String)
  faceAnns : Option (List String)
  deriving DecidableEq, Repr

/-- One call to an external provider: either the generative-text API
(model name plus the prompt looked up from the prompts table, `none`
when the table has no entry for the mode) or the Vision API (the
feature list looked up from the features table, `none` when absent). -/
inductive ProviderCall where
  | gemini (modelName : String) (prompt : Option String)
  | vision (feats : Option (List (String × Option Nat)))
  deriving DecidableEq, Repr

/-- Model of JavaScript's `String.prototype.toUpperCase`: per-character
upper-casing of the string's characters. -/
def jsUpper (s : String) : String :=
  String.mk (s.data.map Char.toUpper)

/-- Model of JavaScript's `String.prototype.slice(0, n)`: the first `n`
characters of the string. -/
def jsTake (s : String) (n : Nat) : String :=
  String.mk (s.data.take n)

/-- The mode list the handler's Gemini branch dispatches on
(`['gemini', 'describe', 'mood', 'haiku'].includes(mode)`, analyze.js
line 36). -/
def geminiDispatch : List String := ["gemini", "describe", "mood", "haiku"]

/-- The fixed fallback list of model identifiers (analyze.js line 56). -/
def geminiModels : List String :=
  ["gemini-2.0-flash", "gemini-1.5-flash-latest", "gemini-pro-vision"]

/-- The celebrity entry of the prompts table (analyze.js lines 39-41). -/
def celebrityPrompt : String :=
  "If you recognize this person, describe them WITHOUT naming them. Focus on what they are known for, their style, their vibe, or their legacy. Be poetic and indirect. 15-20 words. Reply in uppercase. Never mention their name.\n\nEXCEPTION: If this is Donald Trump, write a brief satirical critique of his politics in 15-20 words. Be sharp, witty, and critical. Mention things like ego, lies, division, or chaos. Reply in uppercase. Never use his name - refer to him as \"ORANGE CROWN\" instead."

/-- The prompts table of the Gemini branch (analyze.js lines 37-44):
keys `gemini`, `celebrity`, `mood`, `haiku`; anything else is an absent
property, modelled as `none`. -/
def promptsTable (mode : String) : Option String :=
  if mode = "gemini" then
    some "Describe this image in 10 words or less. Be direct and poetic. Reply in uppercase."
  else if mode = "celebrity" then
    some celebrityPrompt
  else if mode = "mood" then
    some "Describe the mood or atmosphere of this image in 5 words or less. Reply in uppercase."
  else if mode = "haiku" then
    some "Write a haiku about this image. Reply in uppercase."
  else
    none

/-- The features table of the Vision branch (analyze.js lines 88-92):
each feature is a type string with an optional maxResults. -/
def featuresTable (mode : String) : Option (List (String × Option Nat)) :=
  if mode = "labels" then some [("LABEL_DETECTION", some 10)]
  else if mode = "text" then some [("TEXT_DETECTION", none)]
  else if mode = "faces" then some [("FACE_DETECTION", some 10)]
  else none

/-- The model-fallback loop (analyze.js lines 56-81): try each model in
order; on the first success store the upper-cased response text and
stop; on failure remember the error and continue; if every model fails,
throw an error naming the last failure.  `gen` is the outcome of
`model.generateContent` per model name.  Returns the list of models
actually attempted together with the outcome. -/
def fallbackTrace (gen : String → Except String String) :
    List String → Option String → List String × Except String String
  | [], lastErr =>
      ([], Except.error ("All models failed. Last error: " ++ lastErr.getD "undefined"))
  | m :: rest, lastErr =>
      match gen m with
      | Except.ok t => ([m], Except.ok (jsUpper t))
      | Except.error e =>
          let r := fallbackTrace gen rest (some e)
          (m :: r.1, r.2)

/-- The Vision-branch response formatting (analyze.js lines 110-118):
an if/else-if chain over the mode and the truthiness of the annotation
arrays (`textAnnotations?.[0]` additionally requires a first element). -/
def visionFormat (mode : String) (d : VisionResData) : String :=
  if mode = "labels" ∧ d.labelAnns.isSome then
    String.intercalate "\n" (((d.labelAnns.getD []).take 5).map jsUpper)
  else if mode = "text" ∧ (d.textAnns.getD []) ≠ [] then
    jsTake (jsUpper ((d.textAnns.getD []).headD "")) 100
  else if mode = "faces" ∧ d.faceAnns.isSome then
    "FACES DETECTED"
  else
    "NO DATA FOUND"

/-- The catch clause's body (analyze.js line 126):
`error.message || 'Server Error'` wrapped as an error body. -/
def errBody (e : String) : JsonBody :=
  ⟨none, some (if e = "" then "Server Error" else e)⟩

/-- The analyze handler (analyze.js, default export), as a function of
the request (method, body fields), the environment key, and two oracles
for the external calls: `generate` maps a model name and the prompt
sent to it to the generative call's outcome; `vision` maps the feature
list sent to the Vision API to either a rejection (message) or the
parsed `data.responses?.[0]`.  Returns the provider calls issued and
the HTTP response. -/
def handler (method : String) (base64Image mode : String) (apiKey : Option String)
    (generate : String → Option String → Except String String)
    (vision : Option (List (String × Option Nat)) → Except String (Option VisionResData)) :
    List ProviderCall × HttpResponse :=
  if method = "OPTIONS" then
    ([], ⟨200, none⟩)
  else if apiKey.getD "" = "" then
    ([], ⟨500, some ⟨none, some "API Key not configured"⟩⟩)
  else if mode ∈ geminiDispatch then
    let prompt := promptsTable mode
    let run := fallbackTrace (fun m => generate m prompt) geminiModels none
    let calls := run.1.map (fun m => ProviderCall.gemini m prompt)
    match run.2 with
    | Except.ok t => (calls, ⟨200, some ⟨some t, none⟩⟩)
    | Except.error e => (calls, ⟨500, some (errBody e)⟩)
  else
    let feats := featuresTable mode
    let calls := [ProviderCall.vision feats]
    match vision feats with
    | Except.error e => (calls, ⟨500, some (errBody e)⟩)
    | Except.ok none => (calls, ⟨500, some (errBody "No response from Vision API")⟩)
    | Except.ok (some d) => (calls, ⟨200, some ⟨some (visionFormat mode d), none⟩⟩)

/-- One RGBA pixel of a canvas `ImageData` buffer; channels are the
stored byte values. -/
structure RGBA where
  r : Nat
  g : Nat
  b : Nat
  a : Nat
  deriving DecidableEq, Repr

/-- Round `num / den` to the nearest integer, ties to even — the
rounding a `Uint8ClampedArray` store performs. -/
def roundTiesEven (num den : Nat) : Nat :=
  let q := num / den
  let r := num % den
  if 2 * r < den then q
  else if den < 2 * r then q + 1
  else if q % 2 = 0 then q else q + 1

/-- The weighted average `data[i]*0.299 + data[i+1]*0.587 +
data[i+2]*0.114` as stored back into the clamped byte array: the exact
rational value is `(299 r + 587 g + 114 b) / 1000`, stored with
round-to-nearest-ties-even and clamped to 255. -/
def monoValue (r g b : Nat) : Nat :=
  min 255 (roundTiesEven (299 * r + 587 * g + 114 * b) 1000)

/-- The per-pixel monochrome transform (applyFilters, monochrome
branch): all three colour channels are set to the weighted average;
alpha is untouched. -/
def monoPixel (p : RGBA) : RGBA :=
  let avg := monoValue p.r p.g p.b
  ⟨avg, avg, avg, p.a⟩

/-- The monochrome pass over the whole pixel buffer. -/
def monoPass (buf : List RGBA) : List RGBA :=
  buf.map monoPixel

/-- Round a rational to the nearest integer, ties to even. -/
def roundTiesEvenQ (q : ℚ) : ℤ :=
  let f := q.floor
  let frac := q - (f : ℚ)
  if frac < 1 / 2 then f
  else if 1 / 2 < frac then f + 1
  else if f % 2 = 0 then f else f + 1

/-- Store a rational channel value into a clamped byte:
`Math.min(255, Math.max(0, v))` followed by the clamped-array store's
rounding. -/
def storeByte (q : ℚ) : Nat :=
  (roundTiesEvenQ (min 255 (max 0 q))).toNat

/-- The per-pixel grain transform: one noise sample is added to all
three colour channels of the pixel. -/
def grainPixel (noise : ℚ) (p : RGBA) : RGBA :=
  ⟨storeByte ((p.r : ℚ) + noise), storeByte ((p.g : ℚ) + noise),
    storeByte ((p.b : ℚ) + noise), p.a⟩

/-- The grain pass: per pixel `i`, noise is
`(Math.random() - 0.5) * intensity`; `rand i` is the `Math.random()`
sample for pixel `i`. -/
def grainPass (intensity : ℚ) (rand : Nat → ℚ) (buf : List RGBA) : List RGBA :=
  buf.mapIdx fun i p => grainPixel ((rand i - 1 / 2) * intensity) p

/-- The client's filter settings: the monochrome checkbox and the grain
percentage (0-100). -/
structure FilterSettings where
  monochrome : Bool
  grain : Nat
  deriving DecidableEq, Repr

/-- `applyFilters` of the filter-equipped App variants: a monochrome
pass when the checkbox is set, then a grain pass when the grain
percentage is positive, with intensity `grain / 100 * 80` (the later
variant uses scale 160 instead of 80; the scale is irrelevant to every
claim, so the earlier variant's constant is used). -/
def applyFilters (fs : FilterSettings) (rand : Nat → ℚ) (buf : List RGBA) : List RGBA :=
  let b1 := if fs.monochrome then monoPass buf else buf
  if 0 < fs.grain then grainPass ((fs.grain : ℚ) / 100 * 80) rand b1 else b1

/-- Match a literal character sequence at the head of a list, returning
the remainder on success. -/
def chopLit : List Char → List Char → Option (List Char)
  | [], l => some l
  | _ :: _, [] => none
  | p :: ps, c :: cs => if p = c then chopLit ps cs else none

/-- A word character, as in the regex class backslash-w. -/
def isWordChar (c : Char) : Bool :=
  c.isAlphanum || c = '_'

/-- Model of `replace(/^data:image\/\w+;base64,/, '')`: strip the data
URL header when the string starts with `data:image/`, one or more word
characters, and `;base64,`; otherwise return the string unchanged. -/
def stripDataUrl (s : String) : String :=
  match chopLit "data:image/".data s.data with
  | none => s
  | some rest =>
      let w := rest.takeWhile isWordChar
      if w = [] then s
      else
        match chopLit ";base64,".data (rest.dropWhile isWordChar) with
        | none => s
        | some tail => String.mk tail

/-- What one run of the client's `captureAndAnalyze` produces: the
`base64Image` string sent in the POST /api/analyze body, and the data
URL shown as the captured image. -/
structure CaptureOutput where
  sent : String
  displayed : String
  deriving DecidableEq, Repr

/-- `captureAndAnalyze` of the filter-equipped App variants, up to the
network call: draw the frame, encode the raw canvas
(`canvas.toDataURL`, the abstract `encode`), strip the data URL header
to get the payload, then run `applyFilters` on the canvas and encode
again for display. -/
def captureAndAnalyze (encode : List RGBA → String) (frame : List RGBA)
    (fs : FilterSettings) (rand : Nat → ℚ) : CaptureOutput :=
  let rawImageData := encode frame
  let base64Image := stripDataUrl rawImageData
  let filtered := applyFilters fs rand frame
  let filteredImageData := encode filtered
  { sent := base64Image, displayed := filteredImageData }

example :
    handler "OPTIONS" "img" "gemini" none (fun _ _ => Except.error "x")
      (fun _ => Except.error "x") = ([], ⟨200, none⟩) := by rfl

example : stripDataUrl "data:image/jpeg;base64,AbC" = "AbC" := by decide

example : monoValue 10 10 10 = 10 := by decide

example : monoValue 255 0 0 = 76 := by decide

lemma monoValue_grey (v : Nat) : monoValue v v v = min 255 v := by
  unfold monoValue roundTiesEven
  have h1 : 299 * v + 587 * v + 114 * v = 1000 * v := by ring
  have h2 : 1000 * v / 1000 = v := Nat.mul_div_cancel_left v (by norm_num)
  have h3 : 1000 * v % 1000 = 0 := Nat.mul_mod_right 1000 v
  simp [h1, h2, h3]

lemma monoValue_le (r g b : Nat) : monoValue r g b ≤ 255 :=
  min_le_left 255 _

lemma monoPixel_idem (p : RGBA) : monoPixel (monoPixel p) = monoPixel p := by
  have h : monoValue (monoValue p.r p.g p.b) (monoValue p.r p.g p.b)
      (monoValue p.r p.g p.b) = monoValue p.r p.g p.b := by
    rw [monoValue_grey]
    exact min_eq_right (monoValue_le p.r p.g p.b)
  simp [monoPixel, h]

/-- Claim C10: the monochrome filter is idempotent on every pixel
buffer: applying the per-pixel transform that sets all three colour
channels to the weighted average `0.299 R + 0.587 G + 0.114 B` twice
yields the same buffer as applying it once, because the weights sum to
one, so an already-grey pixel maps to itself. -/
theorem monochrome_idempotent (buf : List RGBA) :
    monoPass (monoPass buf) = monoPass buf := by
  induction buf with
  | nil => rfl
  | cons p t ih =>
      simp only [monoPass, List.map_cons, List.map_map] at *
      exact List.cons_eq_cons.mpr ⟨monoPixel_idem p, ih⟩

/-- Claim C9: the monochrome and grain settings have no influence on
the payload sent to POST /api/analyze: the base64 string sent is
computed from the raw canvas before `applyFilters` runs, so two runs on
the same frame with any two filter settings (and any two noise streams)
send identical strings; the filters only reach the displayed image. -/
theorem capture_sends_unfiltered (encode : List RGBA → String) (frame : List RGBA)
    (fs1 fs2 : FilterSettings) (r1 r2 : Nat → ℚ) :
    (captureAndAnalyze encode frame fs1 r1).sent =
      (captureAndAnalyze encode frame fs2 r2).sent ∧
    (captureAndAnalyze encode frame fs1 r1).sent = stripDataUrl (encode frame) ∧
    (captureAndAnalyze encode frame fs1 r1).displayed =
      encode (applyFilters fs1 r1 frame) :=
  ⟨rfl, rfl, rfl⟩

/-- Claim C1 (code bug): the Gemini branch dispatches on
`['gemini', 'describe', 'mood', 'haiku']` while the prompts table and
the client's mode enumeration use `celebrity`, not `describe`.  Hence
mode `celebrity` — despite having its own prompts-table entry — is
routed to the Vision branch with an undefined feature list, and mode
`describe` is routed to the Gemini branch with an undefined prompt. -/
theorem analyze_mode_dispatch_bug :
    promptsTable "celebrity" = some celebrityPrompt ∧
    "celebrity" ∉ geminiDispatch ∧
    "describe" ∈ geminiDispatch ∧
    promptsTable "describe" = none ∧
    featuresTable "celebrity" = none ∧
    (∀ img g v, (handler "POST" img "celebrity" (some "k") g v).1 =
      [ProviderCall.vision none]) ∧
    (∀ img g v, (handler "POST" img "describe" (some "k") g v).1 =
      (fallbackTrace (fun m => g m none) geminiModels none).1.map
        (fun m => ProviderCall.gemini m none)) := by
  refine ⟨rfl, by decide, by decide, by decide, by decide, ?_, ?_⟩
  · intro img g v
    rcases hveq : v none with e | o
    · simp +decide [handler, geminiDispatch, featuresTable, hveq]
    · rcases o with _ | d <;>
        simp +decide [handler, geminiDispatch, featuresTable, hveq]
  · intro img g v
    rcases hr : (fallbackTrace (fun m => g m none) geminiModels none).2 with e | t <;>
      simp +decide [handler, geminiDispatch, promptsTable, hr]

/-- Claim C2: the fallback loop tries the three models in order, stops
at the first success (no further attempts, so at most three attempts),
upper-cases the successful response, and errors with the last attempt's
message only when all three fail. -/
theorem analyze_fallback_behavior (gen : String → Except String String) :
    (fallbackTrace gen geminiModels none).1.length ≤ 3 ∧
    (∀ t, gen "gemini-2.0-flash" = Except.ok t →
      fallbackTrace gen geminiModels none =
        (["gemini-2.0-flash"], Except.ok (jsUpper t))) ∧
    (∀ e1 t, gen "gemini-2.0-flash" = Except.error e1 →
      gen "gemini-1.5-flash-latest" = Except.ok t →
      fallbackTrace gen geminiModels none =
        (["gemini-2.0-flash", "gemini-1.5-flash-latest"], Except.ok (jsUpper t))) ∧
    (∀ e1 e2 t, gen "gemini-2.0-flash" = Except.error e1 →
      gen "gemini-1.5-flash-latest" = Except.error e2 →
      gen "gemini-pro-vision" = Except.ok t →
      fallbackTrace gen geminiModels none =
        (["gemini-2.0-flash", "gemini-1.5-flash-latest", "gemini-pro-vision"],
          Except.ok (jsUpper t))) ∧
    (∀ e1 e2 e3, gen "gemini-2.0-flash" = Except.error e1 →
      gen "gemini-1.5-flash-latest" = Except.error e2 →
      gen "gemini-pro-vision" = Except.error e3 →
      fallbackTrace gen geminiModels none =
        (["gemini-2.0-flash", "gemini-1.5-flash-latest", "gemini-pro-vision"],
          Except.error ("All models failed. Last error: " ++ e3))) := by
  refine ⟨?_, ?_, ?_, ?_, ?_⟩
  · rcases h1 : gen "gemini-2.0-flash" with e1 | t1
    · rcases h2 : gen "gemini-1.5-flash-latest" with e2 | t2
      · rcases h3 : gen "gemini-pro-vision" with e3 | t3 <;>
          simp [geminiModels, fallbackTrace, h1, h2, h3]
      · simp [geminiModels, fallbackTrace, h1, h2]
    · simp [geminiModels, fallbackTrace, h1]
  · intro t h1
    simp [geminiModels, fallbackTrace, h1]
  · intro e1 t h1 h2
    simp [geminiModels, fallbackTrace, h1, h2]
  · intro e1 e2 t h1 h2 h3
    simp [geminiModels, fallbackTrace, h1, h2, h3]
  · intro e1 e2 e3 h1 h2 h3
    simp [geminiModels, fallbackTrace, h1, h2, h3]

/-- Oracle for the witness: the first model fails, any other succeeds. -/
def genSecondOk : String → Except String String :=
  fun m => if m = "gemini-2.0-flash" then Except.error "quota" else Except.ok "hi"

theorem analyze_fallback_behavior_witness :
    fallbackTrace genSecondOk geminiModels none =
      (["gemini-2.0-flash", "gemini-1.5-flash-latest"], Except.ok "HI") := by
  have h := (analyze_fallback_behavior genSecondOk).2.2.1 "quota" "hi" rfl rfl
  have hup : jsUpper "hi" = "HI" := by decide
  rw [hup] at h
  exact h

/-- Oracle that is never consulted by the Vision-branch runs below. -/
def genUnused : String → Option String → Except String String :=
  fun _ _ => Except.error "unused"

/-- Vision oracle answering with a response object that carries no
annotation arrays at all. -/
def visionEmptyRes :
    Option (List (String × Option Nat)) → Except String (Option VisionResData) :=
  fun _ => Except.ok (some ⟨none, none, none⟩)

/-- Vision oracle answering with a JSON payload whose `responses` array
is missing its first element. -/
def visionNoRes :
    Option (List (String × Option Nat)) → Except String (Option VisionResData) :=
  fun _ => Except.ok none

/-- Claim C3 counterexample: a Vision response object that contains no
annotations does NOT surface as an error — the handler answers 200 with
the success body `result = "NO DATA FOUND"`.  So a downstream
"no annotation returned" outcome can produce a result-shaped body. -/
theorem analyze_no_data_success_body :
    handler "POST" "img" "labels" (some "k") genUnused visionEmptyRes =
      ([ProviderCall.vision (some [("LABEL_DETECTION", some 10)])],
        ⟨200, some ⟨some "NO DATA FOUND", none⟩⟩) := by decide

/-- Claim C3 (amended): all fallback models failing, a rejected Vision
call, and a missing Vision response object all surface as status 500
with an error body; but a Vision response object that merely lacks the
requested annotations yields status 200 with the success body
`result = "NO DATA FOUND"`. -/
theorem analyze_failure_amended (mode img key : String)
    (g : String → Option String → Except String String)
    (v : Option (List (String × Option Nat)) → Except String (Option VisionResData))
    (hkey : ¬ key = "") :
    (mode ∈ geminiDispatch →
      ∀ e1 e2 e3, g "gemini-2.0-flash" (promptsTable mode) = Except.error e1 →
        g "gemini-1.5-flash-latest" (promptsTable mode) = Except.error e2 →
        g "gemini-pro-vision" (promptsTable mode) = Except.error e3 →
        (handler "POST" img mode (some key) g v).2 =
          ⟨500, some (errBody ("All models failed. Last error: " ++ e3))⟩) ∧
    (¬ mode ∈ geminiDispatch → v (featuresTable mode) = Except.ok none →
      (handler "POST" img mode (some key) g v).2 =
        ⟨500, some (errBody "No response from Vision API")⟩) ∧
    (∀ e, ¬ mode ∈ geminiDispatch → v (featuresTable mode) = Except.error e →
      (handler "POST" img mode (some key) g v).2 = ⟨500, some (errBody e)⟩) ∧
    (¬ mode ∈ geminiDispatch →
      v (featuresTable mode) = Except.ok (some ⟨none, none, none⟩) →
      (handler "POST" img mode (some key) g v).2 =
        ⟨200, some ⟨some "NO DATA FOUND", none⟩⟩) := by
  refine ⟨?_, ?_, ?_, ?_⟩
  · intro hd e1 e2 e3 h1 h2 h3
    simp [handler, geminiModels, fallbackTrace, hd, hkey, h1, h2, h3]
  · intro hd hv
    simp [handler, hd, hkey, hv]
  · intro e hd hv
    simp [handler, hd, hkey, hv]
  · intro hd hv
    simp [handler, visionFormat, hd, hkey, hv]

theorem analyze_failure_amended_witness :
    (handler "POST" "img" "faces" (some "k") genUnused visionNoRes).2 =
      ⟨500, some ⟨none, some "No response from Vision API"⟩⟩ := by
  have h := (analyze_failure_amended "faces" "img" "k" genUnused visionNoRes
    (by decide)).2.1 (by decide) rfl
  simpa [errBody] using h

example :
    handler "POST" "img" "labels" (some "k") (fun _ _ => Except.error "x")
      (fun _ => Except.ok (some ⟨some ["cat", "dog"], none, none⟩)) =
    ([ProviderCall.vision (some [("LABEL_DETECTION", some 10)])],
      ⟨200, some ⟨some "CAT\nDOG", none⟩⟩) := by decide

/-- Claim C4: every JSON body produced for a non-OPTIONS request has
exactly one of the two shapes: a result field and no error field, or an
error field and no result field — never both, never neither, and a body
is always present. -/
theorem analyze_body_shape (method img mode : String) (key : Option String)
    (g : String → Option String → Except String String)
    (v : Option (List (String × Option Nat)) → Except String (Option VisionResData))
    (hm : ¬ method = "OPTIONS") :
    ∃ b, (handler method img mode key g v).2.body = some b ∧
      ((b.result ≠ none ∧ b.error = none) ∨ (b.result = none ∧ b.error ≠ none)) := by
  by_cases hk : key.getD "" = ""
  · exact ⟨⟨none, some "API Key not configured"⟩, by simp [handler, hm, hk],
      Or.inr ⟨rfl, by simp⟩⟩
  · by_cases hd : mode ∈ geminiDispatch
    · rcases hr : (fallbackTrace (fun m => g m (promptsTable mode)) geminiModels none).2
        with e | t
      · exact ⟨errBody e, by simp [handler, hm, hk, hd, hr],
          Or.inr ⟨rfl, by simp [errBody]⟩⟩
      · exact ⟨⟨some t, none⟩, by simp [handler, hm, hk, hd, hr],
          Or.inl ⟨by simp, rfl⟩⟩
    · rcases hv : v (featuresTable mode) with e | o
      · exact ⟨errBody e, by simp [handler, hm, hk, hd, hv],
          Or.inr ⟨rfl, by simp [errBody]⟩⟩
      · rcases o with _ | d
        · exact ⟨errBody "No response from Vision API",
            by simp [handler, hm, hk, hd, hv], Or.inr ⟨rfl, by simp [errBody]⟩⟩
        · exact ⟨⟨some (visionFormat mode d), none⟩,
            by simp [handler, hm, hk, hd, hv], Or.inl ⟨by simp, rfl⟩⟩

theorem analyze_body_shape_witness :
    ∃ b, (handler "POST" "img" "labels" (some "k") genUnused visionEmptyRes).2.body =
      some b ∧ ((b.result ≠ none ∧ b.error = none) ∨ (b.result = none ∧ b.error ≠ none)) :=
  analyze_body_shape "POST" "img" "labels" (some "k") genUnused visionEmptyRes (by decide)

lemma fallbackTrace_models_ne_nil (gen : String → Except String String)
    (acc : Option String) : (fallbackTrace gen geminiModels acc).1 ≠ [] := by
  rcases hg : gen "gemini-2.0-flash" with e | t <;>
    simp [geminiModels, fallbackTrace, hg]

/-- Claim C5: response text is upper-cased and truncated where
specified: a successful fallback run returns some model's text
upper-cased; a `labels` result is the first five label descriptions
upper-cased and newline-joined; a `text` result is the first text
annotation's description upper-cased and cut to 100 characters. -/
theorem analyze_formatting :
    (∀ gen s, (fallbackTrace gen geminiModels none).2 = Except.ok s →
      ∃ m t, m ∈ geminiModels ∧ gen m = Except.ok t ∧ s = jsUpper t) ∧
    (∀ d ls, VisionResData.labelAnns d = some ls →
      visionFormat "labels" d = String.intercalate "\n" ((ls.take 5).map jsUpper)) ∧
    (∀ d t ts, VisionResData.textAnns d = some (t :: ts) →
      visionFormat "text" d = jsTake (jsUpper t) 100) := by
  refine ⟨?_, ?_, ?_⟩
  · have key : ∀ (l : List String) (acc : Option String) (gen : String → Except String String)
        (s : String), (fallbackTrace gen l acc).2 = Except.ok s →
        ∃ m t, m ∈ l ∧ gen m = Except.ok t ∧ s = jsUpper t := by
      intro l
      induction l with
      | nil => intro acc gen s h; simp [fallbackTrace] at h
      | cons m rest ih =>
          intro acc gen s h
          rcases hg : gen m with e | t
          · simp only [fallbackTrace, hg] at h
            obtain ⟨mn, t, hmem, hok, hs⟩ := ih (some e) gen s h
            exact ⟨mn, t, List.mem_cons_of_mem m hmem, hok, hs⟩
          · simp only [fallbackTrace, hg, Except.ok.injEq] at h
            exact ⟨m, t, List.mem_cons_self m rest, hg, h.symm⟩
    exact fun gen s h => key geminiModels none gen s h
  · intro d ls h
    simp [visionFormat, h]
  · intro d t ts h
    simp [visionFormat, h]

theorem analyze_formatting_witness :
    visionFormat "labels" ⟨some ["cat", "dog"], none, none⟩ = "CAT\nDOG" ∧
    visionFormat "text" ⟨none, some ["hi there"], none⟩ = "HI THERE" := by
  constructor
  · have h := analyze_formatting.2.1 ⟨some ["cat", "dog"], none, none⟩ ["cat", "dog"] rfl
    rw [h]; decide
  · have h := analyze_formatting.2.2 ⟨none, some ["hi there"], none⟩ "hi there" [] rfl
    rw [h]; decide

/-- Claim C6: a request that reaches the analysis logic (non-OPTIONS,
key present) contacts exactly one provider: the call trace is nonempty,
and it is all generative-text calls when the mode is in the Gemini
dispatch list, and exactly one Vision call otherwise — never a mix. -/
theorem analyze_single_provider (method img mode : String) (key : Option String)
    (g : String → Option String → Except String String)
    (v : Option (List (String × Option Nat)) → Except String (Option VisionResData))
    (hm : ¬ method = "OPTIONS") (hk : ¬ key.getD "" = "") :
    (handler method img mode key g v).1 ≠ [] ∧
    ((mode ∈ geminiDispatch ∧
        ∀ c ∈ (handler method img mode key g v).1,
          ∃ mn, c = ProviderCall.gemini mn (promptsTable mode)) ∨
      (¬ mode ∈ geminiDispatch ∧
        (handler method img mode key g v).1 = [ProviderCall.vision (featuresTable mode)])) := by
  by_cases hd : mode ∈ geminiDispatch
  · have hcalls : (handler method img mode key g v).1 =
        (fallbackTrace (fun m => g m (promptsTable mode)) geminiModels none).1.map
          (fun mn => ProviderCall.gemini mn (promptsTable mode)) := by
      rcases hr : (fallbackTrace (fun m => g m (promptsTable mode)) geminiModels none).2
        with e | t <;> simp [handler, hm, hk, hd, hr]
    refine ⟨?_, Or.inl ⟨hd, ?_⟩⟩
    · rw [hcalls]
      simp only [ne_eq, List.map_eq_nil_iff]
      exact fallbackTrace_models_ne_nil _ _
    · intro c hc
      rw [hcalls] at hc
      obtain ⟨mn, _, rfl⟩ := List.mem_map.mp hc
      exact ⟨mn, rfl⟩
  · have hcalls : (handler method img mode key g v).1 =
        [ProviderCall.vision (featuresTable mode)] := by
      rcases hv : v (featuresTable mode) with e | o
      · simp [handler, hm, hk, hd, hv]
      · rcases o with _ | d <;> simp [handler, hm, hk, hd, hv]
    exact ⟨by rw [hcalls]; simp, Or.inr ⟨hd, hcalls⟩⟩

theorem analyze_single_provider_witness :
    (handler "POST" "img" "labels" (some "k") genUnused visionEmptyRes).1 =
      [ProviderCall.vision (featuresTable "labels")] := by
  rcases analyze_single_provider "POST" "img" "labels" (some "k") genUnused
    visionEmptyRes (by decide) (by decide) with ⟨_, hcase⟩
  rcases hcase with ⟨hd, _⟩ | ⟨_, hcalls⟩
  · exact absurd hd (by decide)
  · exact hcalls

/-- Claim C7: with the credential absent from the environment, any
non-OPTIONS request is answered 500 with the body
`error = "API Key not configured"` and no provider is contacted. -/
theorem analyze_missing_key (method img mode : String)
    (g : String → Option String → Except String String)
    (v : Option (List (String × Option Nat)) → Except String (Option VisionResData))
    (hm : ¬ method = "OPTIONS") :
    handler method img mode none g v =
      ([], ⟨500, some ⟨none, some "API Key not configured"⟩⟩) := by
  simp [handler, hm]

theorem analyze_missing_key_witness :
    handler "GET" "img" "gemini" none genUnused visionEmptyRes =
      ([], ⟨500, some ⟨none, some "API Key not configured"⟩⟩) :=
  analyze_missing_key "GET" "img" "gemini" genUnused visionEmptyRes (by decide)

/-- Claim C8: the handler special-cases only OPTIONS: any two
non-OPTIONS methods (GET, PUT, PATCH, DELETE as well as POST) produce
identical provider calls and responses, and no request, whatever its
method, is ever answered 405. -/
theorem analyze_method_uniform (m1 m2 img mode : String) (key : Option String)
    (g : String → Option String → Except String String)
    (v : Option (List (String × Option Nat)) → Except String (Option VisionResData))
    (h1 : ¬ m1 = "OPTIONS") (h2 : ¬ m2 = "OPTIONS") :
    handler m1 img mode key g v = handler m2 img mode key g v ∧
    (∀ method, (handler method img mode key g v).2.status ≠ 405) := by
  constructor
  · simp only [handler, if_neg h1, if_neg h2]
  · intro method
    by_cases hop : method = "OPTIONS"
    · simp [handler, hop]
    · by_cases hk : key.getD "" = ""
      · simp [handler, hop, hk]
      · by_cases hd : mode ∈ geminiDispatch
        · rcases hr : (fallbackTrace (fun m => g m (promptsTable mode)) geminiModels none).2
            with e | t <;> simp [handler, hop, hk, hd, hr]
        · rcases hv : v (featuresTable mode) with e | o
          · simp [handler, hop, hk, hd, hv]
          · rcases o with _ | d <;> simp [handler, hop, hk, hd, hv]

theorem analyze_method_uniform_witness :
    handler "GET" "img" "labels" (some "k") genUnused visionEmptyRes =
      handler "DELETE" "img" "labels" (some "k") genUnused visionEmptyRes :=
  (analyze_method_uniform "GET" "DELETE" "img" "labels" (some "k") genUnused
    visionEmptyRes (by decide) (by decide)).1
